import Mathlib

/-!
Verification development for the remote web control program (src/main.py).

The Python source is shallowly embedded: Python floats are modelled as
rationals, Python values occurring in decoded JSON messages as the
inductive type `PyVal`, exceptions as `Except PyErr`, and the effectful
pynput / websocket calls as emitted action lists and message traces.
-/

/-- Python exception classes that the embedded code can raise. -/
inductive PyErr where
  | attributeError
  | valueError
  | typeError
  | keyError
deriving DecidableEq, Repr

/-- pynput mouse buttons used by the program. -/
inductive Button where
  | left
  | middle
  | right
deriving DecidableEq, Repr

/-- Effect of one pynput mouse call performed by `apply_mouse`. -/
inductive MouseAction where
  | setPos (x y : Int)
  | press (b : Button)
  | release (b : Button)
  | scroll (dx dy : Int)
deriving DecidableEq, Repr

/-- pynput special keys appearing in SPECIAL_KEYS (src/main.py lines 402-408). -/
inductive Key where
  | enter
  | backspace
  | tab
  | esc
  | up
  | down
  | left
  | right
  | delete
  | home
  | end'
  | page_up
  | page_down
deriving DecidableEq, Repr

/-- Effect of one pynput keyboard call performed by `apply_key`. -/
inductive KeyAction where
  | typeStr (s : String)
  | press (k : Key)
  | release (k : Key)
deriving DecidableEq, Repr

/-- A host-level input action, mouse or keyboard. -/
inductive HostAction where
  | mouse (a : MouseAction)
  | key (a : KeyAction)
deriving DecidableEq, Repr

deriving instance DecidableEq for Except

/-- Python values as they arise from json.loads: None, bools, ints,
floats (modelled as rationals), strings, lists and string-keyed dicts. -/
inductive PyVal where
  | none
  | bool (b : Bool)
  | int (n : Int)
  | float (q : Rat)
  | str (s : String)
  | list (xs : List PyVal)
  | dict (xs : List (String × PyVal))

/-- Lookup in the association list backing a Python dict. -/
def dictGet : List (String × PyVal) → String → Option PyVal
  | [], _ => Option.none
  | (k, v) :: rest, key => if k = key then some v else dictGet rest key

/-- Python `v.get(key, default)`: raises AttributeError when `v` is not a
dict, otherwise returns the stored value or the default. -/
def pyGet (v : PyVal) (key : String) (default : PyVal) : Except PyErr PyVal :=
  match v with
  | PyVal.dict xs => Except.ok ((dictGet xs key).getD default)
  | _ => Except.error PyErr.attributeError

/-- Python `v == s` for a string literal `s`: true only when `v` is the
same string (comparison between a string and another type is False). -/
def pyEqStr (v : PyVal) (s : String) : Bool :=
  match v with
  | PyVal.str t => t = s
  | _ => false

/-- Python truthiness `bool(v)`. -/
def pyTruthy (v : PyVal) : Bool :=
  match v with
  | PyVal.none => false
  | PyVal.bool b => b
  | PyVal.int n => n != 0
  | PyVal.float q => q != 0
  | PyVal.str s => s ≠ ""
  | PyVal.list xs => !xs.isEmpty
  | PyVal.dict xs => !xs.isEmpty

/-- Decimal digits to a natural number. -/
def digitsToNat (cs : List Char) : Nat :=
  cs.foldl (fun a c => a * 10 + (c.toNat - 48)) 0

/-- Python `float(s)` on a string, modelled for plain decimal literals
with an optional sign and fractional part; anything else fails
(ValueError), e.g. `float("abc")`. -/
def strToFloat? (s : String) : Option Rat :=
  let cs := s.toList
  let sign : Int := if cs.head? = some '-' then -1 else 1
  let cs := if cs.head? = some '-' ∨ cs.head? = some '+' then cs.tail else cs
  let intPart := cs.takeWhile Char.isDigit
  let rest := cs.dropWhile Char.isDigit
  match rest with
  | [] => if intPart = [] then Option.none else some ((sign : Rat) * digitsToNat intPart)
  | '.' :: frac =>
      if frac.all Char.isDigit ∧ (intPart ≠ [] ∨ frac ≠ []) then
        some ((sign : Rat) * ((digitsToNat intPart : Rat)
          + (digitsToNat frac : Rat) / (10 ^ frac.length)))
      else Option.none
  | _ => Option.none

/-- Python `int(s)` on a string: optional sign followed by digits. -/
def strToInt? (s : String) : Option Int :=
  let cs := s.toList
  let sign : Int := if cs.head? = some '-' then -1 else 1
  let cs := if cs.head? = some '-' ∨ cs.head? = some '+' then cs.tail else cs
  if cs ≠ [] ∧ cs.all Char.isDigit then some (sign * digitsToNat cs) else Option.none

/-- Python `int(q)` on a float: truncation toward zero. -/
def pyInt (q : Rat) : Int :=
  if 0 ≤ q then ⌊q⌋ else ⌈q⌉

/-- Python 3 `round(q)` to an integer: round half to even. -/
def pyRound (q : Rat) : Int :=
  if q - ⌊q⌋ < 1/2 then ⌊q⌋
  else if (1:Rat)/2 < q - ⌊q⌋ then ⌊q⌋ + 1
  else if ⌊q⌋ % 2 = 0 then ⌊q⌋ else ⌊q⌋ + 1

/-- Python `float(v)` conversion. -/
def pyFloat (v : PyVal) : Except PyErr Rat :=
  match v with
  | PyVal.none => Except.error PyErr.typeError
  | PyVal.bool b => Except.ok (if b then 1 else 0)
  | PyVal.int n => Except.ok (n : Rat)
  | PyVal.float q => Except.ok q
  | PyVal.str s =>
      match strToFloat? s with
      | some q => Except.ok q
      | Option.none => Except.error PyErr.valueError
  | PyVal.list _ => Except.error PyErr.typeError
  | PyVal.dict _ => Except.error PyErr.typeError

/-- Python `int(v)` conversion. -/
def pyIntOf (v : PyVal) : Except PyErr Int :=
  match v with
  | PyVal.none => Except.error PyErr.typeError
  | PyVal.bool b => Except.ok (if b then 1 else 0)
  | PyVal.int n => Except.ok n
  | PyVal.float q => Except.ok (pyInt q)
  | PyVal.str s =>
      match strToInt? s with
      | some n => Except.ok n
      | Option.none => Except.error PyErr.valueError
  | PyVal.list _ => Except.error PyErr.typeError
  | PyVal.dict _ => Except.error PyErr.typeError

/-- Lowercase an ASCII letter, identity otherwise. -/
def asciiLower (c : Char) : Char :=
  if 'A' ≤ c ∧ c ≤ 'Z' then Char.ofNat (c.toNat + 32) else c

/-- Python `s.lower()` on the ASCII strings the protocol uses. -/
def pyStrLower (s : String) : String :=
  String.mk (s.toList.map asciiLower)

/-- Python `v.lower()`: raises AttributeError on a non-string. -/
def pyLower (v : PyVal) : Except PyErr String :=
  match v with
  | PyVal.str s => Except.ok (pyStrLower s)
  | _ => Except.error PyErr.attributeError

/-- pynput `keyboard.type(v)` requires string input; other values raise. -/
def asTypeText (v : PyVal) : Except PyErr String :=
  match v with
  | PyVal.str s => Except.ok s
  | _ => Except.error PyErr.typeError

/-- SPECIAL_KEYS mapping from src/main.py lines 402-408. -/
def SPECIAL_KEYS : List (String × Key) :=
  [("enter", Key.enter), ("backspace", Key.backspace), ("tab", Key.tab),
   ("escape", Key.esc), ("esc", Key.esc),
   ("up", Key.up), ("down", Key.down), ("left", Key.left), ("right", Key.right),
   ("delete", Key.delete), ("home", Key.home), ("end", Key.end'),
   ("pageup", Key.page_up), ("pagedown", Key.page_down)]

/-- Embedding of `apply_mouse(evt, screen_w, screen_h)` (src/main.py
lines 410-428).  The produced pynput calls are returned as a list;
an uncaught Python exception is an `Except.error`. -/
def apply_mouse (evt : PyVal) (screen_w screen_h : Nat) :
    Except PyErr (List MouseAction) := do
  let etype ← pyGet evt "etype" PyVal.none
  let nxv ← pyGet evt "nx" (PyVal.float 0)
  let nx ← pyFloat nxv
  let nyv ← pyGet evt "ny" (PyVal.float 0)
  let ny ← pyFloat nyv
  let x := pyInt (nx * (screen_w : Rat))
  let y := pyInt (ny * (screen_h : Rat))
  if pyEqStr etype "move" then
    pure [MouseAction.setPos x y]
  else if pyEqStr etype "click" then do
    let btnv ← pyGet evt "button" (PyVal.str "left")
    let pressedv ← pyGet evt "pressed" (PyVal.bool false)
    let pressed := pyTruthy pressedv
    let b := if pyEqStr btnv "left" then Button.left
      else if pyEqStr btnv "right" then Button.right
      else Button.middle
    if pressed then pure [MouseAction.press b] else pure [MouseAction.release b]
  else if pyEqStr etype "dblclick" then
    pure [MouseAction.setPos x y,
      MouseAction.press Button.left, MouseAction.release Button.left,
      MouseAction.press Button.left, MouseAction.release Button.left]
  else if pyEqStr etype "scroll" then do
    let dxv ← pyGet evt "dx" (PyVal.int 0)
    let dx ← pyIntOf dxv
    let dyv ← pyGet evt "dy" (PyVal.int 0)
    let dy ← pyIntOf dyv
    pure [MouseAction.scroll dx dy]
  else
    pure []

/-- Embedding of `apply_key(evt)` (src/main.py lines 430-443). -/
def apply_key (evt : PyVal) : Except PyErr (List KeyAction) := do
  let etype ← pyGet evt "etype" PyVal.none
  if pyEqStr etype "text" then do
    let txtv ← pyGet evt "text" (PyVal.str "")
    if pyTruthy txtv then do
      let s ← asTypeText txtv
      pure [KeyAction.typeStr s]
    else
      pure []
  else do
    let keyv ← pyGet evt "key" PyVal.none
    let keyd := if pyTruthy keyv then keyv else PyVal.str ""
    let key_name ← pyLower keyd
    match List.lookup key_name SPECIAL_KEYS with
    | Option.none =>
        if key_name.length = 1 then pure [KeyAction.typeStr key_name] else pure []
    | some k =>
        if pyEqStr etype "keydown" then pure [KeyAction.press k]
        else if pyEqStr etype "keyup" then pure [KeyAction.release k]
        else pure []

/-- Embedding of one iteration of the receive loop in `ws_endpoint`
(src/main.py lines 459-469).  The argument is the result of
`json.loads` on the received text: `Option.none` when parsing raised
(the inner try/except swallows exactly that and continues); the inner
dispatch runs unprotected, so any other exception escapes the loop. -/
def ws_handle (parsed : Option PyVal) (screen_w screen_h : Nat) :
    Except PyErr (List HostAction) :=
  match parsed with
  | Option.none => Except.ok []
  | some msg => do
      let t ← pyGet msg "type" PyVal.none
      if pyEqStr t "input" then do
        let d ← pyGet msg "device" PyVal.none
        if pyEqStr d "mouse" then
          (apply_mouse msg screen_w screen_h).map (List.map HostAction.mouse)
        else if pyEqStr d "keyboard" then
          (apply_key msg).map (List.map HostAction.key)
        else
          pure []
      else
        pure []

/-- A mouse move event dict as the bundled client sends it. -/
def move_evt (nx ny : Rat) : PyVal :=
  PyVal.dict [("etype", PyVal.str "move"), ("nx", PyVal.float nx), ("ny", PyVal.float ny)]

/-- A mouse click event dict with explicit button and pressed values. -/
def click_evt (btn pressed : PyVal) : PyVal :=
  PyVal.dict [("etype", PyVal.str "click"), ("button", btn), ("pressed", pressed)]

/-- An input message dict as dispatched by `ws_endpoint`. -/
def input_msg (device : String) (fields : List (String × PyVal)) : PyVal :=
  PyVal.dict (("type", PyVal.str "input") :: ("device", PyVal.str device) :: fields)

/-- Configuration normalization from src/main.py line 79:
a subsampling value outside 0, 1, 2 is replaced by 0. -/
def normalize_subsampling (s : Int) : Int :=
  if s = 0 ∨ s = 1 ∨ s = 2 then s else 0

/-- Configuration normalization from src/main.py line 80:
a codec string outside jpeg, webp, png is replaced by jpeg. -/
def normalize_codec (c : String) : String :=
  if c = "jpeg" ∨ c = "webp" ∨ c = "png" then c else "jpeg"

/-- Pacing interval from src/main.py line 346: 1.0 / max(1, FPS). -/
def frame_interval (fps : Int) : Rat :=
  1 / (max 1 fps : Int)

/-- The frozen per-process configuration read by the streaming loop. -/
structure Config where
  fps : Int
  skip_dup : Bool
  quality : Int
  subsampling : Int
  codec : String
  webp_lossless : Bool
  scale : Rat
  have_turbojpeg : Bool
  have_numpy : Bool
  webp_ok : Bool

/-- A captured raw frame: dimensions and the raw pixel byte buffer. -/
structure Frame where
  w : Nat
  h : Nat
  rgb : List Nat

/-- zlib.adler32 over a byte buffer (sum and rolling sum mod 65521). -/
def adler32 (data : List Nat) : Nat :=
  let ab := data.foldl
    (fun (ab : Nat × Nat) x =>
      let a := (ab.1 + x % 256) % 65521
      (a, (ab.2 + a) % 65521))
    (1, 0)
  ab.2 * 65536 + ab.1

/-- Duplicate suppression from src/main.py lines 362-366: with
skipping enabled, compute the checksum and drop the frame when it
matches the stored one, otherwise store it and send; with skipping
disabled, always send without computing a checksum. Returns
(sendFrame?, new stored checksum). -/
def dup_check (skip : Bool) (prev : Option Nat) (buf : List Nat) : Bool × Option Nat :=
  if skip then
    let crc := adler32 buf
    if some crc = prev then (false, prev)
    else (true, some crc)
  else (true, prev)

/-- Fold of `dup_check` over consecutive captured buffers, counting
how many frames are transmitted. -/
def dup_run (skip : Bool) : Option Nat → List (List Nat) → Nat
  | _, [] => 0
  | prev, f :: rest =>
      let r := dup_check skip prev f
      (if r.1 then 1 else 0) + dup_run skip r.2 rest

/-- Target-dimension computation and conditional resize shared by both
encoder paths (src/main.py lines 374-380 and 388-391):
sw, sh = max(1, int(w*SCALE)), max(1, int(h*SCALE)) when SCALE != 1.0,
and the resize is skipped when the target equals the source. Returns
the dimensions of the frame handed to the encoder. -/
def resize_dims (w h : Nat) (scale : Rat) : Nat × Nat :=
  if scale ≠ 1 then
    if max 1 (pyInt ((w : Rat) * scale)) ≠ (w : Int)
        ∨ max 1 (pyInt ((h : Rat) * scale)) ≠ (h : Int) then
      ((max 1 (pyInt ((w : Rat) * scale))).toNat, (max 1 (pyInt ((h : Rat) * scale))).toNat)
    else (w, h)
  else (w, h)

/-- Target dimensions as the spec words them, for comparison with the
code: max(1, round(w*factor)) x max(1, round(h*factor)). -/
def spec_target_dims (w h : Nat) (factor : Rat) : Int × Int :=
  (max 1 (pyRound ((w : Rat) * factor)), max 1 (pyRound ((h : Rat) * factor)))

/-- Image formats a produced payload can carry; `empty` stands for the
empty byte string `_pillow_encode` returns on an unmatched codec. -/
inductive Fmt where
  | jpeg
  | webp
  | png
  | empty
deriving DecidableEq, Repr

/-- Abstraction of one encoded payload: the save parameters that
produced the byte stream, plus the encoded image dimensions. -/
structure Payload where
  fmt : Fmt
  quality : Option Int
  subsampling : Option Int
  lossless : Bool
  w : Nat
  h : Nat
deriving DecidableEq, Repr

/-- Pillow `img.save(format="WEBP", ...)`: raises when this Pillow
build lacks WebP (or the requested lossless mode) support. -/
def pil_save_webp (webp_supported : Bool) (quality : Int) (lossless : Bool)
    (w h : Nat) : Except Unit Payload :=
  if webp_supported then
    Except.ok
      { fmt := Fmt.webp, quality := some quality, subsampling := Option.none,
        lossless := lossless, w := w, h := h }
  else
    Except.error ()

/-- Embedding of `_pillow_encode` (src/main.py lines 305-324): JPEG with
the configured quality and mapped subsampling; WebP guarded by a
try/except that falls back to JPEG with subsampling=0 at the configured
quality; PNG; unmatched codec yields the empty buffer. -/
def pillow_encode (webp_supported : Bool) (codec : String) (quality : Int)
    (subsampling : Int) (webp_lossless : Bool) (w h : Nat) : Payload :=
  if codec = "jpeg" then
    { fmt := Fmt.jpeg, quality := some quality,
      subsampling := some (if subsampling = 0 then 0 else if subsampling = 1 then 1 else 2),
      lossless := false, w := w, h := h }
  else if codec = "webp" then
    match pil_save_webp webp_supported quality webp_lossless w h with
    | Except.ok p => p
    | Except.error _ =>
        { fmt := Fmt.jpeg, quality := some quality, subsampling := some 0,
          lossless := false, w := w, h := h }
  else if codec = "png" then
    { fmt := Fmt.png, quality := Option.none, subsampling := Option.none,
      lossless := true, w := w, h := h }
  else
    { fmt := Fmt.empty, quality := Option.none, subsampling := Option.none,
      lossless := false, w := 0, h := 0 }

/-- The TJSAMP lookup dict in `_turbojpeg_encode_from_bgr`
(src/main.py line 327); a subsampling value outside 0, 1, 2 raises
KeyError, modelled as `Option.none`. -/
def tj_samp (s : Int) : Option Int :=
  if s = 0 then some 0 else if s = 1 then some 1 else if s = 2 then some 2
  else Option.none

/-- Outcome of one producer-loop iteration for a captured frame. -/
inductive StepOut where
  | skip
  | send (p : Payload)
  | died

/-- Encoding of one frame by the loop body (src/main.py lines 368-393):
the TurboJPEG fast path when codec is jpeg and both turbojpeg and numpy
are available (a KeyError from the TJSAMP lookup kills the task),
otherwise the Pillow path. -/
def encode_out (cfg : Config) (shot : Frame) : StepOut :=
  let d := resize_dims shot.w shot.h cfg.scale
  if cfg.codec = "jpeg" ∧ cfg.have_turbojpeg ∧ cfg.have_numpy then
    match tj_samp cfg.subsampling with
    | some _ =>
        StepOut.send
          { fmt := Fmt.jpeg, quality := some cfg.quality,
            subsampling := some cfg.subsampling, lossless := false, w := d.1, h := d.2 }
    | Option.none => StepOut.died
  else
    StepOut.send (pillow_encode cfg.webp_ok cfg.codec cfg.quality cfg.subsampling
      cfg.webp_lossless d.1 d.2)

/-- One full producer-loop iteration (src/main.py lines 352-393):
duplicate check first, then encode and send. -/
def loop_step (cfg : Config) (prev : Option Nat) (shot : Frame) : Option Nat × StepOut :=
  let r := dup_check cfg.skip_dup prev shot.rgb
  if r.1 then (r.2, encode_out cfg shot) else (r.2, StepOut.skip)

/-- A websocket message sent by the server: the JSON text handshake or
one binary encoded frame. -/
inductive Msg where
  | text (v : PyVal)
  | binary (p : Payload)

/-- The handshake JSON object from src/main.py lines 338-344. -/
def handshake_msg (base_w base_h : Nat) (cfg : Config) : PyVal :=
  PyVal.dict [("type", PyVal.str "info"),
    ("screen_w", PyVal.int (base_w : Int)), ("screen_h", PyVal.int (base_h : Int)),
    ("codec", PyVal.str cfg.codec), ("quality", PyVal.int cfg.quality)]

/-- The producer loop run over a sequence of captured frames, collecting
the messages written to the socket; an uncaught exception ends the task. -/
def run_loop (cfg : Config) : Option Nat → List Frame → List Msg
  | _, [] => []
  | prev, shot :: rest =>
      match loop_step cfg prev shot with
      | (p2, StepOut.skip) => run_loop cfg p2 rest
      | (p2, StepOut.send payload) => Msg.binary payload :: run_loop cfg p2 rest
      | (_, StepOut.died) => []

/-- The full message trace of `send_frames` (src/main.py lines 332-393):
the handshake text message, sent once before the loop starts, followed
by the loop's binary frames. -/
def send_frames_trace (cfg : Config) (base_w base_h : Nat) (frames : List Frame) : List Msg :=
  Msg.text (handshake_msg base_w base_h cfg) :: run_loop cfg Option.none frames

/-- Is a websocket message a text message? -/
def isText : Msg → Bool
  | Msg.text _ => true
  | Msg.binary _ => false

/-- Resolution of a button name in the click branch of `apply_mouse`. -/
def btnOf (s : String) : Button :=
  if s = "left" then Button.left else if s = "right" then Button.right else Button.middle

theorem pyInt_of_nonneg (q : Rat) (h : 0 ≤ q) : pyInt q = ⌊q⌋ := by
  rw [pyInt, if_pos h]

theorem pyInt_eval (q : Rat) (z : Int) (hz : 0 ≤ z) (h1 : (z : Rat) ≤ q)
    (h2 : q < z + 1) : pyInt q = z := by
  have h0 : 0 ≤ q := le_trans (by exact_mod_cast hz) h1
  rw [pyInt_of_nonneg q h0]
  rw [Int.floor_eq_iff]
  exact ⟨h1, by exact_mod_cast h2⟩

/-- C2: with skipDuplicates enabled, a frame whose whole-buffer checksum
equals the stored one is not transmitted and the stored checksum is kept,
while a differing checksum updates the store and transmits; with it
disabled every frame is transmitted with the state untouched (and no
checksum enters the state).  Two consecutive byte-identical buffers from
a fresh stream yield exactly one transmission when enabled, two when
disabled. -/
theorem duplicate_filter_skips_identical_frames (frame : List Nat) (prev : Option Nat) :
    dup_check false prev frame = (true, prev)
    ∧ dup_check true (some (adler32 frame)) frame = (false, some (adler32 frame))
    ∧ (prev ≠ some (adler32 frame) → dup_check true prev frame = (true, some (adler32 frame)))
    ∧ dup_run true Option.none [frame, frame] = 1
    ∧ dup_run false Option.none [frame, frame] = 2 := by
  refine ⟨by simp [dup_check], by simp [dup_check], ?_, ?_, ?_⟩
  · intro hne
    simp only [dup_check, if_true]
    rw [if_neg (fun h => hne h.symm)]
  · simp [dup_run, dup_check]
  · simp [dup_run, dup_check]

/-- Witness for C2 at the concrete buffer [0] and stored checksum 0. -/
theorem duplicate_filter_skips_identical_frames_witness :
    dup_check true (some 0) [0] = (true, some (adler32 [0]))
    ∧ dup_run true Option.none [[0], [0]] = 1
    ∧ dup_run false Option.none [[0], [0]] = 2 := by
  have h := duplicate_filter_skips_identical_frames [0] (some 0)
  exact ⟨h.2.2.1 (by decide), h.2.2.2.1, h.2.2.2.2⟩

/-- C3: requesting WebP (lossless or not) on a backend without WebP
support makes the Pillow save raise, and the catch falls back to a JPEG
save with subsampling 0 (4:4:4) at the configured quality; the encoder
returns that JPEG payload instead of propagating the error. -/
theorem webp_fallback_silently_encodes_jpeg444 (quality subsampling : Int)
    (lossless : Bool) (w h : Nat) :
    pil_save_webp false quality lossless w h = Except.error ()
    ∧ pillow_encode false "webp" quality subsampling lossless w h =
        { fmt := Fmt.jpeg, quality := some quality, subsampling := some 0,
          lossless := false, w := w, h := h }
    ∧ (pillow_encode false "webp" quality subsampling lossless w h).fmt = Fmt.jpeg := by
  refine ⟨rfl, ?_, ?_⟩ <;> simp [pillow_encode, pil_save_webp]

/-- C10: startup normalization makes the pipeline total: subsampling is
forced into 0, 1, 2 and the codec into jpeg, webp, png; the pacing
interval 1/max(1,fps) is positive and a true reciprocal for every
integer fps; the TJSAMP dict lookup cannot raise KeyError on a
normalized subsampling; and the Pillow encoder never falls through to
the unmatched-codec branch on a normalized codec. -/
theorem config_normalization_total (s : Int) (c : String) (fps quality : Int)
    (lossless wok : Bool) (w h : Nat) :
    (normalize_subsampling s = 0 ∨ normalize_subsampling s = 1 ∨ normalize_subsampling s = 2)
    ∧ (normalize_codec c = "jpeg" ∨ normalize_codec c = "webp" ∨ normalize_codec c = "png")
    ∧ 1 ≤ max 1 fps
    ∧ 0 < frame_interval fps
    ∧ frame_interval fps * ((max 1 fps : Int) : Rat) = 1
    ∧ tj_samp (normalize_subsampling s) ≠ Option.none
    ∧ (pillow_encode wok (normalize_codec c) quality s lossless w h).fmt ≠ Fmt.empty := by
  have hsub : normalize_subsampling s = 0 ∨ normalize_subsampling s = 1
      ∨ normalize_subsampling s = 2 := by
    rw [normalize_subsampling]
    split_ifs with hs
    · exact hs
    · exact Or.inl rfl
  have hcodec : normalize_codec c = "jpeg" ∨ normalize_codec c = "webp"
      ∨ normalize_codec c = "png" := by
    rw [normalize_codec]
    split_ifs with hc
    · exact hc
    · exact Or.inl rfl
  have hm : (1 : Int) ≤ max 1 fps := le_max_left 1 fps
  have hr : (0 : Rat) < ((max 1 fps : Int) : Rat) := by
    exact_mod_cast lt_of_lt_of_le Int.zero_lt_one hm
  refine ⟨hsub, hcodec, hm, ?_, ?_, ?_, ?_⟩
  · rw [frame_interval]
    exact div_pos one_pos hr
  · rw [frame_interval]
    exact one_div_mul_cancel (ne_of_gt hr)
  · rcases hsub with h | h | h <;> rw [h] <;> simp [tj_samp]
  · rcases hcodec with h | h | h <;> rw [h] <;> cases wok <;>
      simp [pillow_encode, pil_save_webp]

theorem run_loop_all_binary (cfg : Config) :
    ∀ (frames : List Frame) (prev : Option Nat),
      ∀ m ∈ run_loop cfg prev frames, ∃ p, m = Msg.binary p := by
  intro frames
  induction frames with
  | nil =>
      intro prev m hm
      simp [run_loop] at hm
  | cons shot rest ih =>
      intro prev m hm
      rw [run_loop] at hm
      rcases h : loop_step cfg prev shot with ⟨p2, out⟩
      rw [h] at hm
      cases out with
      | skip => exact ih p2 m hm
      | send payload =>
          rcases List.mem_cons.mp hm with h1 | h2
          · exact ⟨payload, h1⟩
          · exact ih p2 m h2
      | died => simp at hm

/-- C8: the trace of `send_frames` starts with exactly one JSON text
message of the form type=info, screen_w, screen_h, codec, quality, sent
before any frame; it is never repeated, and every later message is one
binary encoded frame. -/
theorem handshake_once_then_binary_frames (cfg : Config) (base_w base_h : Nat)
    (frames : List Frame) :
    (send_frames_trace cfg base_w base_h frames).head? =
        some (Msg.text (PyVal.dict [("type", PyVal.str "info"),
          ("screen_w", PyVal.int (base_w : Int)), ("screen_h", PyVal.int (base_h : Int)),
          ("codec", PyVal.str cfg.codec), ("quality", PyVal.int cfg.quality)]))
    ∧ (∀ m ∈ (send_frames_trace cfg base_w base_h frames).tail, ∃ p, m = Msg.binary p)
    ∧ (send_frames_trace cfg base_w base_h frames).countP isText = 1 := by
  refine ⟨rfl, ?_, ?_⟩
  · intro m hm
    exact run_loop_all_binary cfg frames Option.none m hm
  · rw [send_frames_trace, List.countP_cons]
    have h0 : (run_loop cfg Option.none frames).countP isText = 0 := by
      rw [List.countP_eq_zero]
      intro m hm
      rcases run_loop_all_binary cfg frames Option.none m hm with ⟨p, rfl⟩
      simp [isText]
    simp [h0, isText]

theorem resize_dims_of_ne_one (w h : Nat) (f : Rat) (hf : f ≠ 1) :
    resize_dims w h f =
      ((max 1 (pyInt ((w : Rat) * f))).toNat, (max 1 (pyInt ((h : Rat) * f))).toNat) := by
  rw [resize_dims, if_pos hf]
  by_cases hc : max 1 (pyInt ((w : Rat) * f)) ≠ (w : Int)
      ∨ max 1 (pyInt ((h : Rat) * f)) ≠ (h : Int)
  · rw [if_pos hc]
  · rw [if_neg hc]
    push_neg at hc
    rw [hc.1, hc.2]
    simp

/-- C5 amended: for factor different from 1.0, both encoder paths hand
the encoder a frame of dimensions max(1, int(w*factor)) by
max(1, int(h*factor)) - Python int truncation toward zero, not
rounding - computed independently per axis; both are at least 1. -/
theorem scale_dims_closed_form (w h : Nat) (f : Rat) (hf : f ≠ 1) :
    resize_dims w h f =
      ((max 1 (pyInt ((w : Rat) * f))).toNat, (max 1 (pyInt ((h : Rat) * f))).toNat)
    ∧ 1 ≤ (resize_dims w h f).1 ∧ 1 ≤ (resize_dims w h f).2 := by
  have he := resize_dims_of_ne_one w h f hf
  refine ⟨he, ?_, ?_⟩ <;> rw [he]
  · have h1 : (1 : Int) ≤ max 1 (pyInt ((w : Rat) * f)) := le_max_left _ _
    omega
  · have h1 : (1 : Int) ≤ max 1 (pyInt ((h : Rat) * f)) := le_max_left _ _
    omega

/-- Witness for the amended C5 at a 3x3 frame and factor 1/2: the
encoder receives a 1x1 frame. -/
theorem scale_dims_closed_form_witness :
    resize_dims 3 3 (1/2) = (1, 1) := by
  have h := scale_dims_closed_form 3 3 (1/2) (by norm_num)
  rw [h.1]
  have h1 : pyInt (((3 : Nat) : Rat) * (1/2)) = 1 := by
    refine pyInt_eval _ 1 (by norm_num) ?_ ?_ <;> push_cast <;> norm_num
  rw [h1]
  norm_num

/-- C5 counterexample: at w = h = 3 and factor 1/2 the code computes
max(1, int(1.5)) = 1 per axis while the claimed formula gives
max(1, round(1.5)) = 2, so the claim fails as stated. -/
theorem scale_truncates_not_rounds_cex :
    resize_dims 3 3 (1/2) = (1, 1)
    ∧ spec_target_dims 3 3 (1/2) = (2, 2)
    ∧ ((resize_dims 3 3 (1/2)).1 : Int) ≠ (spec_target_dims 3 3 (1/2)).1 := by
  have h1 : pyInt (((3 : Nat) : Rat) * (1/2)) = 1 := by
    refine pyInt_eval _ 1 (by norm_num) ?_ ?_ <;> push_cast <;> norm_num
  have hfl : (⌊((3 : Nat) : Rat) * (1/2)⌋ : Int) = 1 := by
    rw [Int.floor_eq_iff]
    push_cast
    norm_num
  have hr : pyRound (((3 : Nat) : Rat) * (1/2)) = 2 := by
    rw [pyRound, hfl]
    push_cast
    norm_num
  have hcode : resize_dims 3 3 (1/2) = (1, 1) := by
    rw [resize_dims_of_ne_one 3 3 (1/2) (by norm_num), h1]
    norm_num
  have hspec : spec_target_dims 3 3 (1/2) = (2, 2) := by
    rw [spec_target_dims, hr]
    rw [max_eq_right (by norm_num : (1:Int) ≤ 2)]
  refine ⟨hcode, hspec, ?_⟩
  rw [hcode, hspec]
  norm_num

theorem apply_mouse_move (nx ny : Rat) (W H : Nat) :
    apply_mouse (move_evt nx ny) W H =
      Except.ok [MouseAction.setPos (pyInt (nx * (W : Rat))) (pyInt (ny * (H : Rat)))] := by
  simp [apply_mouse, move_evt, pyGet, dictGet, pyFloat, pyEqStr, bind, Except.bind, pure,
    Except.pure, Except.instMonad]

theorem apply_mouse_click (btn pressed : PyVal) (W H : Nat) :
    apply_mouse (click_evt btn pressed) W H =
      Except.ok [(if pyTruthy pressed then MouseAction.press else MouseAction.release)
        (if pyEqStr btn "left" then Button.left
         else if pyEqStr btn "right" then Button.right else Button.middle)] := by
  simp [apply_mouse, click_evt, pyGet, dictGet, pyFloat, pyEqStr, bind, Except.bind, pure,
    Except.pure, Except.instMonad]
  cases pyTruthy pressed <;> simp

/-- C1 counterexample: the in-range input (1,1) on a 2x2 screen is
translated to (2,2), outside the claimed [0,W-1]x[0,H-1]; the in-range
input (0.75, 0) is translated by truncation to 1, not to round(1.5) = 2;
and the out-of-range input nx = 2 is not clamped but mapped to 4. -/
theorem mouse_move_not_rounded_or_clamped_cex :
    apply_mouse (move_evt 1 1) 2 2 = Except.ok [MouseAction.setPos 2 2]
    ∧ ¬((2 : Int) ≤ 2 - 1)
    ∧ apply_mouse (move_evt (3/4) 0) 2 2 = Except.ok [MouseAction.setPos 1 0]
    ∧ pyRound ((3/4) * ((2 : Nat) : Rat)) = 2
    ∧ apply_mouse (move_evt 2 0) 2 2 = Except.ok [MouseAction.setPos 4 0] := by
  have h0 : pyInt ((0 : Rat) * ((2 : Nat) : Rat)) = 0 := by
    refine pyInt_eval _ 0 le_rfl ?_ ?_ <;> push_cast <;> norm_num
  have h1 : pyInt ((1 : Rat) * ((2 : Nat) : Rat)) = 2 := by
    refine pyInt_eval _ 2 (by norm_num) ?_ ?_ <;> push_cast <;> norm_num
  have h34 : pyInt ((3/4 : Rat) * ((2 : Nat) : Rat)) = 1 := by
    refine pyInt_eval _ 1 (by norm_num) ?_ ?_ <;> push_cast <;> norm_num
  have h2 : pyInt ((2 : Rat) * ((2 : Nat) : Rat)) = 4 := by
    refine pyInt_eval _ 4 (by norm_num) ?_ ?_ <;> push_cast <;> norm_num
  have hfl : (⌊(3/4 : Rat) * ((2 : Nat) : Rat)⌋ : Int) = 1 := by
    rw [Int.floor_eq_iff]
    push_cast
    norm_num
  refine ⟨?_, by norm_num, ?_, ?_, ?_⟩
  · rw [apply_mouse_move, h1]
  · rw [apply_mouse_move, h34, h0]
  · rw [pyRound, hfl]
    push_cast
    norm_num
  · rw [apply_mouse_move, h2, h0]

/-- C1 amended: for a mouse move with nx, ny in [0,1) and screen
dimensions at least 1, the translated position is
(int(nx*W), int(ny*H)) - Python int truncation, which on these
nonnegative values is the floor, not round() - and it lies within
[0,W-1]x[0,H-1].  Coordinates are not clamped: nx = 1 already maps to
x = W (outside the range), and values beyond [0,1] are used as-is. -/
theorem mouse_move_truncates_within_bounds (nx ny : Rat) (W H : Nat)
    (hx0 : 0 ≤ nx) (hx1 : nx < 1) (hy0 : 0 ≤ ny) (hy1 : ny < 1)
    (hW : 1 ≤ W) (hH : 1 ≤ H) :
    apply_mouse (move_evt nx ny) W H =
      Except.ok [MouseAction.setPos ⌊nx * (W : Rat)⌋ ⌊ny * (H : Rat)⌋]
    ∧ 0 ≤ ⌊nx * (W : Rat)⌋ ∧ ⌊nx * (W : Rat)⌋ ≤ (W : Int) - 1
    ∧ 0 ≤ ⌊ny * (H : Rat)⌋ ∧ ⌊ny * (H : Rat)⌋ ≤ (H : Int) - 1 := by
  have hxW : (0 : Rat) ≤ nx * (W : Rat) := mul_nonneg hx0 (Nat.cast_nonneg W)
  have hyH : (0 : Rat) ≤ ny * (H : Rat) := mul_nonneg hy0 (Nat.cast_nonneg H)
  have hWpos : (0 : Rat) < (W : Rat) := by exact_mod_cast Nat.lt_of_lt_of_le Nat.zero_lt_one hW
  have hHpos : (0 : Rat) < (H : Rat) := by exact_mod_cast Nat.lt_of_lt_of_le Nat.zero_lt_one hH
  have hxlt : ⌊nx * (W : Rat)⌋ < (W : Int) :=
    Int.floor_lt.mpr (by push_cast; exact mul_lt_of_lt_one_left hWpos hx1)
  have hylt : ⌊ny * (H : Rat)⌋ < (H : Int) :=
    Int.floor_lt.mpr (by push_cast; exact mul_lt_of_lt_one_left hHpos hy1)
  refine ⟨?_, Int.floor_nonneg.mpr hxW, by omega, Int.floor_nonneg.mpr hyH, by omega⟩
  rw [apply_mouse_move, pyInt_of_nonneg _ hxW, pyInt_of_nonneg _ hyH]

/-- Witness for the amended C1 at nx = ny = 1/2 on a 2x2 screen:
the cursor is set to (1,1), inside [0,1]x[0,1]. -/
theorem mouse_move_truncates_within_bounds_witness :
    apply_mouse (move_evt (1/2) (1/2)) 2 2 = Except.ok [MouseAction.setPos 1 1] := by
  have h := mouse_move_truncates_within_bounds (1/2) (1/2) 2 2
    (by norm_num) (by norm_num) (by norm_num) (by norm_num) (by norm_num) (by norm_num)
  rw [h.1]
  have hfl : (⌊(1/2 : Rat) * ((2 : Nat) : Rat)⌋ : Int) = 1 := by
    rw [Int.floor_eq_iff]
    push_cast
    norm_num
  rw [hfl]

/-- C4 counterexample: a click with the unknown button name "wheel"
presses the middle button, not the left one. -/
theorem unknown_button_defaults_middle_cex :
    apply_mouse (click_evt (PyVal.str "wheel") (PyVal.bool true)) 10 10
      = Except.ok [MouseAction.press Button.middle]
    ∧ Button.middle ≠ Button.left := by
  exact ⟨by decide, by decide⟩

/-- C4 amended: a click event presses or releases per the pressed flag;
the button name "left" maps to the left button and "right" to the right
button, while every other name - "middle" included - maps to the middle
button, so an unknown name defaults to middle, not left; a click with no
button field at all defaults to the left button. -/
theorem click_button_resolution (s : String) (pr : Bool) (W H : Nat)
    (h1 : s ≠ "left") (h2 : s ≠ "right") :
    apply_mouse (click_evt (PyVal.str s) (PyVal.bool pr)) W H =
      Except.ok [(if pr then MouseAction.press else MouseAction.release) (btnOf s)]
    ∧ btnOf s = Button.middle
    ∧ apply_mouse (PyVal.dict [("etype", PyVal.str "click"), ("pressed", PyVal.bool pr)]) W H =
        Except.ok [(if pr then MouseAction.press else MouseAction.release) Button.left] := by
  refine ⟨?_, by simp [btnOf, h1, h2], ?_⟩
  · rw [apply_mouse_click]
    simp [pyEqStr, pyTruthy, btnOf, h1, h2]
  · simp [apply_mouse, pyGet, dictGet, pyFloat, pyEqStr, pyTruthy, bind, Except.bind, pure,
      Except.pure, Except.instMonad]
    cases pr <;> simp

/-- Witness for the amended C4 at the unknown button name "wheel". -/
theorem click_button_resolution_witness :
    apply_mouse (click_evt (PyVal.str "wheel") (PyVal.bool false)) 10 10
      = Except.ok [MouseAction.release (btnOf "wheel")]
    ∧ btnOf "wheel" = Button.middle := by
  have h := click_button_resolution "wheel" false 10 10 (by decide) (by decide)
  exact ⟨h.1, h.2.1⟩

/-- C9: a click event without a pressed field is treated as a release
(the default is False), and a move event missing nx or ny uses 0.0 for
the missing coordinate; both return actions, not errors. -/
theorem missing_click_fields_default (s : String) (q : Rat) (W H : Nat) :
    apply_mouse (PyVal.dict [("etype", PyVal.str "click"), ("button", PyVal.str s)]) W H
      = Except.ok [MouseAction.release (btnOf s)]
    ∧ apply_mouse (PyVal.dict [("etype", PyVal.str "move"), ("ny", PyVal.float q)]) W H
      = Except.ok [MouseAction.setPos (pyInt (0 * (W : Rat))) (pyInt (q * (H : Rat)))]
    ∧ apply_mouse (PyVal.dict [("etype", PyVal.str "move"), ("nx", PyVal.float q)]) W H
      = Except.ok [MouseAction.setPos (pyInt (q * (W : Rat))) (pyInt (0 * (H : Rat)))]
    ∧ pyInt (0 * (W : Rat)) = 0 ∧ pyInt (0 * (H : Rat)) = 0 := by
  have hz : ∀ n : Nat, pyInt (0 * (n : Rat)) = 0 := by
    intro n
    rw [zero_mul, pyInt_of_nonneg _ le_rfl, Int.floor_zero]
  refine ⟨?_, ?_, ?_, hz W, hz H⟩
  · by_cases h1 : s = "left" <;> by_cases h2 : s = "right" <;>
      simp [apply_mouse, pyGet, dictGet, pyFloat, pyEqStr, pyTruthy, btnOf, bind, Except.bind,
        pure, Except.pure, Except.instMonad, h1, h2]
  · simp [apply_mouse, pyGet, dictGet, pyFloat, pyEqStr, bind, Except.bind, pure,
      Except.pure, Except.instMonad]
  · simp [apply_mouse, pyGet, dictGet, pyFloat, pyEqStr, bind, Except.bind, pure,
      Except.pure, Except.instMonad]

/-- C7: evaluating the code on an explicit key-down/key-up pair carrying
the printable character "a" with no modifier: `apply_key` reaches the
len(key_name)==1 branch before dispatching on etype, so it calls
keyboard.type("a") on the key-down AND again on the key-up - the
character is emitted twice per pair, with no press/release pair, where
the claim requires exactly one emission. -/
theorem printable_key_pair_types_twice :
    apply_key (PyVal.dict [("etype", PyVal.str "keydown"), ("key", PyVal.str "a")])
      = Except.ok [KeyAction.typeStr "a"]
    ∧ apply_key (PyVal.dict [("etype", PyVal.str "keyup"), ("key", PyVal.str "a")])
      = Except.ok [KeyAction.typeStr "a"]
    ∧ ([KeyAction.typeStr "a"] ++ [KeyAction.typeStr "a"]).length = 2
    ∧ ¬([KeyAction.typeStr "a"] ++ [KeyAction.typeStr "a"]
        = [KeyAction.typeStr "a"]) := by
  exact ⟨by decide, by decide, rfl, by decide⟩

/-- C6 counterexample: a parseable input message whose nx field is the
string "abc" makes float() raise ValueError outside the try/except that
guards only json.loads (so the receive loop dies and the connection is
not kept open), and a parseable non-object message ([1]) makes
msg.get raise AttributeError the same way. -/
theorem bad_typed_field_raises_cex :
    ws_handle (some (input_msg "mouse"
        [("etype", PyVal.str "move"), ("nx", PyVal.str "abc")])) 1920 1080
      = Except.error PyErr.valueError
    ∧ ws_handle (some (PyVal.list [PyVal.int 1])) 1920 1080
      = Except.error PyErr.attributeError := by
  exact ⟨by decide, by decide⟩

/-- C6 amended: unparseable JSON is dropped with the connection kept
open, and parseable object messages with an unknown device, an unknown
mouse event kind (with numeric coordinates), or an unmapped key name of
length other than 1 are dropped with no action and no error; but a
parseable message whose field has an unconvertible type (here a string
nx) raises an uncaught exception out of the receive loop, so the
connection is not kept open in that case. -/
theorem unknown_events_dropped_bad_types_raise (w h : Nat) (d et k : String) (nx ny : Rat)
    (hd1 : d ≠ "mouse") (hd2 : d ≠ "keyboard")
    (he1 : et ≠ "move") (he2 : et ≠ "click") (he3 : et ≠ "dblclick") (he4 : et ≠ "scroll")
    (hk1 : List.lookup (pyStrLower k) SPECIAL_KEYS = Option.none)
    (hk2 : (pyStrLower k).length ≠ 1) :
    ws_handle Option.none w h = Except.ok []
    ∧ ws_handle (some (input_msg d [])) w h = Except.ok []
    ∧ ws_handle (some (input_msg "mouse"
        [("etype", PyVal.str et), ("nx", PyVal.float nx), ("ny", PyVal.float ny)])) w h
      = Except.ok []
    ∧ ws_handle (some (input_msg "keyboard"
        [("etype", PyVal.str "keydown"), ("key", PyVal.str k)])) w h = Except.ok []
    ∧ ws_handle (some (input_msg "mouse"
        [("etype", PyVal.str "move"), ("nx", PyVal.str "abc")])) w h
      = Except.error PyErr.valueError := by
  refine ⟨rfl, ?_, ?_, ?_, ?_⟩
  · simp [ws_handle, input_msg, pyGet, dictGet, pyEqStr, hd1, hd2, bind, Except.bind, pure,
      Except.pure, Except.instMonad, Except.map]
  · simp [ws_handle, input_msg, apply_mouse, pyGet, dictGet, pyFloat, pyEqStr,
      he1, he2, he3, he4, bind, Except.bind, pure, Except.pure, Except.instMonad, Except.map]
  · by_cases hk : k = ""
    · subst hk
      have h1 : pyStrLower "" = "" := by decide
      simp [ws_handle, input_msg, apply_key, pyGet, dictGet, pyEqStr, pyTruthy, pyLower, h1,
        SPECIAL_KEYS, List.lookup, bind, Except.bind, pure, Except.pure, Except.instMonad,
        Except.map]
    · simp [ws_handle, input_msg, apply_key, pyGet, dictGet, pyEqStr, pyTruthy, pyLower,
        hk, hk1, hk2, bind, Except.bind, pure, Except.pure, Except.instMonad, Except.map]
  · have habc : strToFloat? "abc" = Option.none := by decide
    simp [ws_handle, input_msg, apply_mouse, pyGet, dictGet, pyFloat, pyEqStr, habc,
      bind, Except.bind, pure, Except.pure, Except.instMonad, Except.map]

/-- Witness for the amended C6: the unknown device "gamepad", the
unknown mouse event kind "hover" and the unmapped key name "fnord" are
all dropped as ok-with-no-action, while the string nx raises. -/
theorem unknown_events_dropped_bad_types_raise_witness :
    ws_handle Option.none 100 100 = Except.ok []
    ∧ ws_handle (some (input_msg "gamepad" [])) 100 100 = Except.ok []
    ∧ ws_handle (some (input_msg "mouse"
        [("etype", PyVal.str "hover"), ("nx", PyVal.float 0), ("ny", PyVal.float 0)])) 100 100
      = Except.ok []
    ∧ ws_handle (some (input_msg "keyboard"
        [("etype", PyVal.str "keydown"), ("key", PyVal.str "fnord")])) 100 100 = Except.ok []
    ∧ ws_handle (some (input_msg "mouse"
        [("etype", PyVal.str "move"), ("nx", PyVal.str "abc")])) 100 100
      = Except.error PyErr.valueError := by
  exact unknown_events_dropped_bad_types_raise 100 100 "gamepad" "hover" "fnord" 0 0
    (by decide) (by decide) (by decide) (by decide) (by decide) (by decide)
    (by decide) (by decide)
